import Mathlib

/-!
Shallow embedding of `src/traffic_controller.py` (the signal state machine of
the smart-intersection controller) and proofs of the specified properties.

Timestamps are modelled as rationals; the Python timing constants are the
exact rational values of the source's float literals.  One iteration of the
`while True` loop in `main()` is modelled as `tick`: input processing
(button latch, YOLO car-presence latch) followed by the state-machine
`elif` chain.  The six string states of the source are the six constructors
of `Phase` (spec names); the last `set_lights` call is tracked in the
`lights` field of the state record.
-/

namespace TrafficController

/-- The six phase labels of the source (`state` strings in `main()`),
named as in the spec:  `MAIN_GREEN` ↦ `MainGreen`, `MAIN_YELLOW` ↦
`MainYellow`, `ALL_RED_1` ↦ `AllRedToSide`, `SIDE_GREEN` ↦ `SideGreen`,
`SIDE_YELLOW` ↦ `SideYellow`, `ALL_RED_2` ↦ `AllRedToMain`. -/
inductive Phase where
  | MainGreen
  | MainYellow
  | AllRedToSide
  | SideGreen
  | SideYellow
  | AllRedToMain
  deriving DecidableEq, Repr

/-- The six boolean arguments of `set_lights(mr, my, mg, sr, sy, sg)`. -/
structure LightCommand where
  mr : Bool
  my : Bool
  mg : Bool
  sr : Bool
  sy : Bool
  sg : Bool
  deriving DecidableEq, Repr

/-- `MIN_MAIN_GREEN = 5.0` -/
def MIN_MAIN_GREEN : ℚ := 5
/-- `MAIN_YELLOW_TIME = 2.0` -/
def MAIN_YELLOW_TIME : ℚ := 2
/-- `ALL_RED_TIME = 2.0` -/
def ALL_RED_TIME : ℚ := 2
/-- `SIDE_PED_TIME = 8.0` -/
def SIDE_PED_TIME : ℚ := 8
/-- `SIDE_MIN_GREEN = 4.0` -/
def SIDE_MIN_GREEN : ℚ := 4
/-- `SIDE_MAX_GREEN = 15.0` -/
def SIDE_MAX_GREEN : ℚ := 15
/-- `SIDE_GAP_TIME = 2.5` -/
def SIDE_GAP_TIME : ℚ := 5 / 2
/-- `DETECTION_DELAY = 1.0` -/
def DETECTION_DELAY : ℚ := 1

/-- The controller state carried across loop iterations of `main()`:
`state`, `state_start_time`, the global request flags `req_pedestrian` and
`req_car`, the detection-filter variables `car_first_seen_time` (Python
`None` ↦ `Option.none`) and `last_car_seen_time`, plus the argument tuple
of the most recent `set_lights` call. -/
structure ControllerState where
  state : Phase
  state_start_time : ℚ
  req_pedestrian : Bool
  req_car : Bool
  car_first_seen_time : Option ℚ
  last_car_seen_time : ℚ
  lights : LightCommand
  deriving DecidableEq, Repr

/-- The startup state of `main()`: `state = "MAIN_GREEN"`,
`state_start_time = time.time()` (the parameter `t0`), both request flags
false, `car_first_seen_time = None`, `last_car_seen_time = 0.0`, and the
initial `set_lights(0, 0, 1, 1, 0, 0)` call. -/
def initState (t0 : ℚ) : ControllerState :=
  { state := Phase.MainGreen
    state_start_time := t0
    req_pedestrian := false
    req_car := false
    car_first_seen_time := none
    last_car_seen_time := 0
    lights := { mr := false, my := false, mg := true, sr := true, sy := false, sg := false } }

/-- Line 107 of the source: `time_in_state = now - state_start_time`
(no clamping is applied). -/
def time_in_state (now state_start_time : ℚ) : ℚ :=
  now - state_start_time

/-- Input processing step 1 (`# 1. Check Button`): if the button line is
high and `req_pedestrian` is not yet set, latch it. -/
def latchButton (s : ControllerState) (button_pressed : Bool) : ControllerState :=
  if button_pressed then
    if ¬ s.req_pedestrian then { s with req_pedestrian := true } else s
  else s

/-- Input processing step 2 (`# 2. Check YOLO (Car Detection)`): when a car
is present, record `last_car_seen_time = now`; start the confirmation timer
when `car_first_seen_time is None`; otherwise, once
`now - car_first_seen_time >= DETECTION_DELAY`, set `req_car` provided it
is not already set and `state == "MAIN_GREEN"`.  When no car is present,
reset `car_first_seen_time` to `None`. -/
def latchCar (s : ControllerState) (now : ℚ) (is_car_present : Bool) : ControllerState :=
  if is_car_present then
    let s1 := { s with last_car_seen_time := now }
    match s1.car_first_seen_time with
    | none => { s1 with car_first_seen_time := some now }
    | some t0 =>
      if now - t0 ≥ DETECTION_DELAY then
        if ¬ s1.req_car ∧ s1.state = Phase.MainGreen then
          { s1 with req_car := true }
        else s1
      else s1
  else { s with car_first_seen_time := none }

/-- The full `--- INPUT PROCESSING ---` block: button check, then YOLO
check. -/
def processInputs (s : ControllerState) (now : ℚ)
    (button_pressed is_car_present : Bool) : ControllerState :=
  latchCar (latchButton s button_pressed) now is_car_present

/-- The `--- STATE MACHINE ---` block: the `elif` chain over the six
states.  Each transition sets the new state, resets `state_start_time` to
`now` and issues the corresponding `set_lights` call; the `SIDE_GREEN`
exit additionally clears both request flags.  The `SIDE_GREEN` guard is
the source's: close when neither `hold_for_min_time`
(`time_in_state < min_duration`) nor `hold_for_car_gap`
(`time_since_last_car < SIDE_GAP_TIME`) holds, or unconditionally when
`time_in_state >= SIDE_MAX_GREEN`. -/
def stateMachine (s : ControllerState) (now : ℚ) : ControllerState :=
  match s.state with
  | Phase.MainGreen =>
      if (s.req_pedestrian ∨ s.req_car) ∧
          time_in_state now s.state_start_time ≥ MIN_MAIN_GREEN then
        { s with state := Phase.MainYellow, state_start_time := now
                 lights := { mr := false, my := true, mg := false,
                             sr := true, sy := false, sg := false } }
      else s
  | Phase.MainYellow =>
      if time_in_state now s.state_start_time ≥ MAIN_YELLOW_TIME then
        { s with state := Phase.AllRedToSide, state_start_time := now
                 lights := { mr := true, my := false, mg := false,
                             sr := true, sy := false, sg := false } }
      else s
  | Phase.AllRedToSide =>
      if time_in_state now s.state_start_time ≥ ALL_RED_TIME then
        { s with state := Phase.SideGreen, state_start_time := now
                 lights := { mr := true, my := false, mg := false,
                             sr := false, sy := false, sg := true } }
      else s
  | Phase.SideGreen =>
      if (¬ time_in_state now s.state_start_time <
            (if s.req_pedestrian then SIDE_PED_TIME else SIDE_MIN_GREEN) ∧
          ¬ now - s.last_car_seen_time < SIDE_GAP_TIME) ∨
          time_in_state now s.state_start_time ≥ SIDE_MAX_GREEN then
        { s with state := Phase.SideYellow, state_start_time := now
                 req_pedestrian := false, req_car := false
                 lights := { mr := true, my := false, mg := false,
                             sr := false, sy := true, sg := false } }
      else s
  | Phase.SideYellow =>
      if time_in_state now s.state_start_time ≥ MAIN_YELLOW_TIME then
        { s with state := Phase.AllRedToMain, state_start_time := now
                 lights := { mr := true, my := false, mg := false,
                             sr := true, sy := false, sg := false } }
      else s
  | Phase.AllRedToMain =>
      if time_in_state now s.state_start_time ≥ ALL_RED_TIME then
        { s with state := Phase.MainGreen, state_start_time := now
                 lights := { mr := false, my := false, mg := true,
                             sr := true, sy := false, sg := false } }
      else s

/-- One iteration of the `while True` loop at timestamp `now`: input
processing, then the state machine. -/
def tick (s : ControllerState) (now : ℚ)
    (button_pressed is_car_present : Bool) : ControllerState :=
  stateMachine (processInputs s now button_pressed is_car_present) now

/-- Run the loop over a list of per-tick inputs
`(now, button_pressed, is_car_present)`. -/
def run (s : ControllerState) : List (ℚ × Bool × Bool) → ControllerState
  | [] => s
  | (now, b, c) :: rest => run (tick s now b c) rest

/-- The static phase → lights table implicit in the source's `set_lights`
call sites (lines 102/206, 144, 150, 157, 189, 199). -/
def lightTable : Phase → LightCommand
  | Phase.MainGreen =>
      { mr := false, my := false, mg := true, sr := true, sy := false, sg := false }
  | Phase.MainYellow =>
      { mr := false, my := true, mg := false, sr := true, sy := false, sg := false }
  | Phase.AllRedToSide =>
      { mr := true, my := false, mg := false, sr := true, sy := false, sg := false }
  | Phase.SideGreen =>
      { mr := true, my := false, mg := false, sr := false, sy := false, sg := true }
  | Phase.SideYellow =>
      { mr := true, my := false, mg := false, sr := false, sy := true, sg := false }
  | Phase.AllRedToMain =>
      { mr := true, my := false, mg := false, sr := true, sy := false, sg := false }

/-- The cyclic successor in the six-state cycle. -/
def nextPhase : Phase → Phase
  | Phase.MainGreen => Phase.MainYellow
  | Phase.MainYellow => Phase.AllRedToSide
  | Phase.AllRedToSide => Phase.SideGreen
  | Phase.SideGreen => Phase.SideYellow
  | Phase.SideYellow => Phase.AllRedToMain
  | Phase.AllRedToMain => Phase.MainGreen

/-! ### Helper lemmas about the component functions -/

lemma latchButton_eq (s : ControllerState) (b : Bool) :
    latchButton s b = { s with req_pedestrian := s.req_pedestrian || b } := by
  obtain ⟨st, sst, rp, rc, cf, lc, li⟩ := s
  unfold latchButton
  cases b <;> cases rp <;> simp

lemma latchCar_false (s : ControllerState) (now : ℚ) :
    latchCar s now false = { s with car_first_seen_time := none } := rfl

lemma latchCar_true_none (s : ControllerState) (now : ℚ)
    (h : s.car_first_seen_time = none) :
    latchCar s now true =
      { s with last_car_seen_time := now, car_first_seen_time := some now } := by
  obtain ⟨st, sst, rp, rc, cf, lc, li⟩ := s
  cases h
  rfl

lemma latchCar_true_some (s : ControllerState) (now t0 : ℚ)
    (h : s.car_first_seen_time = some t0) :
    latchCar s now true =
      if now - t0 ≥ DETECTION_DELAY ∧ ¬ s.req_car ∧ s.state = Phase.MainGreen then
        { s with last_car_seen_time := now, req_car := true }
      else
        { s with last_car_seen_time := now } := by
  obtain ⟨st, sst, rp, rc, cf, lc, li⟩ := s
  cases h
  unfold latchCar
  by_cases hd : now - t0 ≥ DETECTION_DELAY <;>
    by_cases hr : (rc : Prop) <;>
      by_cases hst : st = Phase.MainGreen <;>
        simp [hd, hr, hst]

lemma latchCar_state (s : ControllerState) (now : ℚ) (c : Bool) :
    (latchCar s now c).state = s.state := by
  cases c
  · rw [latchCar_false]
  · rcases hc : s.car_first_seen_time with _ | t0
    · rw [latchCar_true_none s now hc]
    · rw [latchCar_true_some s now t0 hc]
      split <;> rfl

lemma latchCar_sst (s : ControllerState) (now : ℚ) (c : Bool) :
    (latchCar s now c).state_start_time = s.state_start_time := by
  cases c
  · rw [latchCar_false]
  · rcases hc : s.car_first_seen_time with _ | t0
    · rw [latchCar_true_none s now hc]
    · rw [latchCar_true_some s now t0 hc]
      split <;> rfl

lemma latchCar_lights (s : ControllerState) (now : ℚ) (c : Bool) :
    (latchCar s now c).lights = s.lights := by
  cases c
  · rw [latchCar_false]
  · rcases hc : s.car_first_seen_time with _ | t0
    · rw [latchCar_true_none s now hc]
    · rw [latchCar_true_some s now t0 hc]
      split <;> rfl

lemma latchCar_ped (s : ControllerState) (now : ℚ) (c : Bool) :
    (latchCar s now c).req_pedestrian = s.req_pedestrian := by
  cases c
  · rw [latchCar_false]
  · rcases hc : s.car_first_seen_time with _ | t0
    · rw [latchCar_true_none s now hc]
    · rw [latchCar_true_some s now t0 hc]
      split <;> rfl

lemma latchCar_car_mono (s : ControllerState) (now : ℚ) (c : Bool)
    (h : s.req_car = true) : (latchCar s now c).req_car = true := by
  cases c
  · rw [latchCar_false]; exact h
  · rcases hc : s.car_first_seen_time with _ | t0
    · rw [latchCar_true_none s now hc]; exact h
    · rw [latchCar_true_some s now t0 hc]
      split <;> simp [h]

lemma processInputs_state (s : ControllerState) (now : ℚ) (b c : Bool) :
    (processInputs s now b c).state = s.state := by
  unfold processInputs
  rw [latchCar_state, latchButton_eq]

lemma processInputs_sst (s : ControllerState) (now : ℚ) (b c : Bool) :
    (processInputs s now b c).state_start_time = s.state_start_time := by
  unfold processInputs
  rw [latchCar_sst, latchButton_eq]

lemma processInputs_lights (s : ControllerState) (now : ℚ) (b c : Bool) :
    (processInputs s now b c).lights = s.lights := by
  unfold processInputs
  rw [latchCar_lights, latchButton_eq]

lemma processInputs_ped_mono (s : ControllerState) (now : ℚ) (b c : Bool)
    (h : s.req_pedestrian = true) :
    (processInputs s now b c).req_pedestrian = true := by
  unfold processInputs
  rw [latchCar_ped, latchButton_eq]
  simp [h]

lemma processInputs_car_mono (s : ControllerState) (now : ℚ) (b c : Bool)
    (h : s.req_car = true) : (processInputs s now b c).req_car = true := by
  unfold processInputs
  refine latchCar_car_mono _ now c ?_
  rw [latchButton_eq]
  exact h

lemma stateMachine_first (s : ControllerState) (now : ℚ) :
    (stateMachine s now).car_first_seen_time = s.car_first_seen_time := by
  obtain ⟨st, sst, rp, rc, cf, lc, li⟩ := s
  cases st <;> unfold stateMachine <;> dsimp only <;> split <;> (try split) <;> rfl

lemma stateMachine_last (s : ControllerState) (now : ℚ) :
    (stateMachine s now).last_car_seen_time = s.last_car_seen_time := by
  obtain ⟨st, sst, rp, rc, cf, lc, li⟩ := s
  cases st <;> unfold stateMachine <;> dsimp only <;> split <;> (try split) <;> rfl

lemma stateMachine_step (s : ControllerState) (now : ℚ) :
    (stateMachine s now).state = s.state ∨
    (stateMachine s now).state = nextPhase s.state := by
  obtain ⟨st, sst, rp, rc, cf, lc, li⟩ := s
  cases st <;> unfold stateMachine <;> dsimp only <;> split <;> (try split) <;>
    simp [nextPhase]

lemma stateMachine_lights (s : ControllerState) (now : ℚ)
    (h : s.lights = lightTable s.state) :
    (stateMachine s now).lights = lightTable (stateMachine s now).state := by
  obtain ⟨st, sst, rp, rc, cf, lc, li⟩ := s
  cases st <;> unfold stateMachine <;> dsimp only <;> split <;> (try split) <;>
    simp_all [lightTable]

lemma stateMachine_car_false (s : ControllerState) (now : ℚ)
    (h : s.req_car = false) : (stateMachine s now).req_car = false := by
  obtain ⟨st, sst, rp, rc, cf, lc, li⟩ := s
  cases st <;> unfold stateMachine <;> dsimp only <;> split <;> (try split) <;>
    simp_all

lemma stateMachine_req_frame (s : ControllerState) (now : ℚ)
    (h : ¬ (s.state = Phase.SideGreen ∧
            (stateMachine s now).state = Phase.SideYellow)) :
    (stateMachine s now).req_pedestrian = s.req_pedestrian ∧
    (stateMachine s now).req_car = s.req_car := by
  obtain ⟨st, sst, rp, rc, cf, lc, li⟩ := s
  cases st <;> unfold stateMachine at * <;> dsimp only at * <;> split <;>
    (try split) <;> simp_all

lemma stateMachine_req_clear (s : ControllerState) (now : ℚ)
    (hs : s.state = Phase.SideGreen)
    (ht : (stateMachine s now).state = Phase.SideYellow) :
    (stateMachine s now).req_pedestrian = false ∧
    (stateMachine s now).req_car = false := by
  obtain ⟨st, sst, rp, rc, cf, lc, li⟩ := s
  cases hs
  unfold stateMachine at *
  dsimp only at *
  split at ht <;> (try split at ht) <;> simp_all

lemma tick_lights_inv (s : ControllerState) (now : ℚ) (b c : Bool)
    (h : s.lights = lightTable s.state) :
    (tick s now b c).lights = lightTable (tick s now b c).state := by
  unfold tick
  apply stateMachine_lights
  rw [processInputs_lights, processInputs_state]
  exact h

lemma run_lights_inv : ∀ (l : List (ℚ × Bool × Bool)) (s : ControllerState),
    s.lights = lightTable s.state →
    (run s l).lights = lightTable (run s l).state
  | [], _, h => h
  | (_, _, _) :: rest, s, h =>
      run_lights_inv rest _ (tick_lights_inv s _ _ _ h)

lemma tick_step (s : ControllerState) (now : ℚ) (b c : Bool) :
    (tick s now b c).state = s.state ∨
    (tick s now b c).state = nextPhase s.state := by
  unfold tick
  rcases stateMachine_step (processInputs s now b c) now with h | h <;>
    rw [processInputs_state] at h
  · exact Or.inl h
  · exact Or.inr h

/-! ### Claim theorems -/

/-- C1: from the initial state, over every sequence of ticks, both
approaches are never green simultaneously, and on every tick the phase
either stays put or moves to its unique cyclic successor
(`MainGreen → MainYellow → AllRedToSide → SideGreen → SideYellow →
AllRedToMain → MainGreen`), so every exit from `MainGreen` (resp.
`SideGreen`) passes through `MainYellow` then `AllRedToSide` (resp.
`SideYellow` then `AllRedToMain`) before the opposing green, with no
skips, no reverse transitions, and at most one transition per tick. -/
theorem C1_cycle_order_and_green_exclusion :
    (∀ (t0 : ℚ) (l : List (ℚ × Bool × Bool)),
       ((run (initState t0) l).lights.mg && (run (initState t0) l).lights.sg) = false)
  ∧ (∀ (s : ControllerState) (now : ℚ) (b c : Bool),
       (tick s now b c).state = s.state ∨
       (tick s now b c).state = nextPhase s.state) := by
  constructor
  · intro t0 l
    rw [run_lights_inv l (initState t0) rfl]
    have h : ∀ p : Phase, ((lightTable p).mg && (lightTable p).sg) = false := by
      intro p; cases p <;> rfl
    exact h _
  · exact tick_step

/-- C2: after every tick (and at startup) the light command last issued by
`set_lights` is exactly the current phase's entry in the static table,
whose six rows are the ones listed in the claim; moreover every row
asserts at most one of red/yellow/green per approach and never both
greens. -/
theorem C2_lights_follow_phase_table :
    lightTable Phase.MainGreen =
      { mr := false, my := false, mg := true, sr := true, sy := false, sg := false }
  ∧ lightTable Phase.MainYellow =
      { mr := false, my := true, mg := false, sr := true, sy := false, sg := false }
  ∧ lightTable Phase.AllRedToSide =
      { mr := true, my := false, mg := false, sr := true, sy := false, sg := false }
  ∧ lightTable Phase.SideGreen =
      { mr := true, my := false, mg := false, sr := false, sy := false, sg := true }
  ∧ lightTable Phase.SideYellow =
      { mr := true, my := false, mg := false, sr := false, sy := true, sg := false }
  ∧ lightTable Phase.AllRedToMain =
      { mr := true, my := false, mg := false, sr := true, sy := false, sg := false }
  ∧ (∀ (t0 : ℚ) (l : List (ℚ × Bool × Bool)),
       (run (initState t0) l).lights = lightTable (run (initState t0) l).state)
  ∧ (∀ p : Phase,
       (lightTable p).mr.toNat + (lightTable p).my.toNat + (lightTable p).mg.toNat ≤ 1
       ∧ (lightTable p).sr.toNat + (lightTable p).sy.toNat + (lightTable p).sg.toNat ≤ 1
       ∧ ((lightTable p).mg && (lightTable p).sg) = false) := by
  refine ⟨rfl, rfl, rfl, rfl, rfl, rfl, ?_, ?_⟩
  · intro t0 l
    exact run_lights_inv l (initState t0) rfl
  · intro p; cases p <;> exact ⟨by decide, by decide, rfl⟩

/-- C9: every light command issued by the control loop (the initial
command `lightTable MainGreen` and the command tracked after every run of
ticks) asserts exactly one of red/yellow/green per approach — neither
approach is ever dark — and in every row of the table at least one of the
two red lamps is on, so whenever one approach is not showing red the
opposing approach is. -/
theorem C9_exactly_one_lamp_per_approach :
    (∀ p : Phase,
       (lightTable p).mr.toNat + (lightTable p).my.toNat + (lightTable p).mg.toNat = 1
       ∧ (lightTable p).sr.toNat + (lightTable p).sy.toNat + (lightTable p).sg.toNat = 1
       ∧ ((lightTable p).mr || (lightTable p).sr) = true)
  ∧ (∀ t0 : ℚ, (initState t0).lights = lightTable Phase.MainGreen)
  ∧ (∀ (t0 : ℚ) (l : List (ℚ × Bool × Bool)),
       (run (initState t0) l).lights = lightTable (run (initState t0) l).state) := by
  refine ⟨?_, fun _ => rfl, ?_⟩
  · intro p; cases p <;> exact ⟨by decide, by decide, rfl⟩
  · intro t0 l
    exact run_lights_inv l (initState t0) rfl

lemma stateMachine_hold_mainGreen (s : ControllerState) (now : ℚ)
    (hs : s.state = Phase.MainGreen)
    (h : now - s.state_start_time < MIN_MAIN_GREEN) :
    (stateMachine s now).state = Phase.MainGreen := by
  obtain ⟨st, sst, rp, rc, cf, lc, li⟩ := s
  cases hs
  unfold stateMachine
  dsimp only
  rw [if_neg]
  intro hcon
  have h2 := hcon.2
  simp only [time_in_state, ge_iff_le] at h2
  dsimp only at h
  linarith

/-- C3: while the phase is `SideGreen`, the transition step (evaluated on
the request state current when the `elif` chain runs) moves to
`SideYellow` iff `elapsed ≥ min_duration ∧ gap ≥ SIDE_GAP_TIME` or
`elapsed ≥ SIDE_MAX_GREEN`, where
`min_duration = SIDE_PED_TIME if req_pedestrian else SIDE_MIN_GREEN`,
`elapsed = now − phase_started_at` and `gap = now − vehicle_last_seen_at`;
otherwise it stays in `SideGreen`, so `SideGreen` never exits earlier and
`elapsed ≥ SIDE_MAX_GREEN` forces the exit on that tick. -/
theorem C3_sideGreen_gap_out (s : ControllerState) (now : ℚ)
    (hs : s.state = Phase.SideGreen) :
    ((stateMachine s now).state = Phase.SideYellow ↔
       ((if s.req_pedestrian then SIDE_PED_TIME else SIDE_MIN_GREEN) ≤
            now - s.state_start_time
          ∧ SIDE_GAP_TIME ≤ now - s.last_car_seen_time)
        ∨ now - s.state_start_time ≥ SIDE_MAX_GREEN)
  ∧ ((stateMachine s now).state = Phase.SideGreen ∨
     (stateMachine s now).state = Phase.SideYellow) := by
  obtain ⟨st, sst, rp, rc, cf, lc, li⟩ := s
  cases hs
  unfold stateMachine
  dsimp only
  refine ⟨?_, ?_⟩ <;> split <;> (try split) <;>
    simp_all [time_in_state, not_lt]

/-- C4: while the phase is `MainGreen`, the transition step moves to
`MainYellow` iff `(pedestrian_requested ∨ vehicle_requested)` and
`now − phase_started_at ≥ MIN_MAIN_GREEN`, and it can only stay in
`MainGreen` or move to `MainYellow`; moreover a full tick (with any
inputs) never leaves `MainGreen` before `MIN_MAIN_GREEN` has elapsed since
the phase began. -/
theorem C4_mainGreen_min_hold (s : ControllerState) (now : ℚ) (b c : Bool) :
    (s.state = Phase.MainGreen →
       (((stateMachine s now).state = Phase.MainYellow ↔
           (s.req_pedestrian = true ∨ s.req_car = true) ∧
             now - s.state_start_time ≥ MIN_MAIN_GREEN)
        ∧ ((stateMachine s now).state = Phase.MainGreen ∨
           (stateMachine s now).state = Phase.MainYellow)))
  ∧ (s.state = Phase.MainGreen → now - s.state_start_time < MIN_MAIN_GREEN →
       (tick s now b c).state = Phase.MainGreen) := by
  constructor
  · intro hs
    obtain ⟨st, sst, rp, rc, cf, lc, li⟩ := s
    cases hs
    unfold stateMachine
    dsimp only
    constructor <;> split
    all_goals simp_all [time_in_state]
  · intro hs hlt
    unfold tick
    apply stateMachine_hold_mainGreen
    · rw [processInputs_state]; exact hs
    · rw [processInputs_sst]; exact hlt

lemma latchCar_last_true (s : ControllerState) (now : ℚ) :
    (latchCar s now true).last_car_seen_time = now := by
  rcases hc : s.car_first_seen_time with _ | t0
  · rw [latchCar_true_none s now hc]
  · rw [latchCar_true_some s now t0 hc]
    split <;> rfl

lemma tick_confirm_invariant (A : ℚ → Prop) (s : ControllerState) (now : ℚ)
    (b c : Bool) (hreq : s.req_car = false)
    (hanchor : s.car_first_seen_time = none ∨
      ∃ t, s.car_first_seen_time = some t ∧ A t)
    (hAnow : c = true → A now)
    (hgap : ∀ t, A t → c = true → now - t < DETECTION_DELAY) :
    (tick s now b c).req_car = false ∧
    ((tick s now b c).car_first_seen_time = none ∨
      ∃ t, (tick s now b c).car_first_seen_time = some t ∧ A t) := by
  unfold tick processInputs
  set s1 := latchButton s b with hs1
  have h1req : s1.req_car = false := by rw [hs1, latchButton_eq]; exact hreq
  have h1cf : s1.car_first_seen_time = s.car_first_seen_time := by
    rw [hs1, latchButton_eq]
  cases c
  · rw [latchCar_false]
    refine ⟨stateMachine_car_false _ now h1req, ?_⟩
    rw [stateMachine_first]
    exact Or.inl rfl
  · rcases hanchor with hnone | ⟨t, ht, hAt⟩
    · rw [latchCar_true_none _ _ (h1cf.trans hnone)]
      refine ⟨stateMachine_car_false _ now h1req, ?_⟩
      rw [stateMachine_first]
      exact Or.inr ⟨now, rfl, hAnow rfl⟩
    · rw [latchCar_true_some _ _ t (h1cf.trans ht)]
      rw [if_neg]
      · refine ⟨stateMachine_car_false _ now h1req, ?_⟩
        rw [stateMachine_first]
        exact Or.inr ⟨t, h1cf.trans ht, hAt⟩
      · intro hcon
        exact absurd hcon.1 (not_le.mpr (hgap t hAt rfl))

lemma run_confirm_false (A : ℚ → Prop) :
    ∀ (l : List (ℚ × Bool × Bool)) (s : ControllerState),
      (∀ x ∈ l, x.2.2 = true → A x.1) →
      (∀ t, A t → ∀ x ∈ l, x.2.2 = true → x.1 - t < DETECTION_DELAY) →
      s.req_car = false →
      (s.car_first_seen_time = none ∨
        ∃ t, s.car_first_seen_time = some t ∧ A t) →
      (run s l).req_car = false := by
  intro l
  induction l with
  | nil => intro s _ _ h _; exact h
  | cons x rest ih =>
      intro s hA hgap hreq hanchor
      obtain ⟨now, b, c⟩ := x
      have step := tick_confirm_invariant A s now b c hreq hanchor
        (fun hc => hA (now, b, c) (List.mem_cons_self _ _) hc)
        (fun t hAt hc => hgap t hAt (now, b, c) (List.mem_cons_self _ _) hc)
      exact ih (tick s now b c)
        (fun y hy hc => hA y (List.mem_cons_of_mem _ hy) hc)
        (fun t hAt y hy hc => hgap t hAt y (List.mem_cons_of_mem _ hy) hc)
        step.1 step.2

/-- C5: on a tick with the vehicle present, `last_car_seen_time` is set to
`now`; the confirmation window opens (`car_first_seen_time := now`) when
it was `None` (leaving `req_car` untouched); when the window is already
open at `t0`, `req_car` ends up true exactly when it already was true or
`now − t0 ≥ DETECTION_DELAY` with the phase `MainGreen`.  On a tick with
the vehicle absent the window is reset to `None`.  Consequently over any
run whose vehicle-present ticks all lie within a window shorter than
`DETECTION_DELAY` (a single short pulse), `req_car` is never set. -/
theorem C5_detection_delay_filter (s : ControllerState) (now : ℚ) (b : Bool) :
    ((processInputs s now b true).last_car_seen_time = now)
  ∧ (s.car_first_seen_time = none →
       (processInputs s now b true).car_first_seen_time = some now
       ∧ (processInputs s now b true).req_car = s.req_car)
  ∧ (∀ t0, s.car_first_seen_time = some t0 →
       (processInputs s now b true).car_first_seen_time = some t0
       ∧ ((processInputs s now b true).req_car = true ↔
           (s.req_car = true ∨
             (now - t0 ≥ DETECTION_DELAY ∧ s.state = Phase.MainGreen))))
  ∧ ((processInputs s now b false).car_first_seen_time = none)
  ∧ (∀ (l : List (ℚ × Bool × Bool)),
       (∀ x ∈ l, x.2.2 = true → ∀ y ∈ l, y.2.2 = true →
          x.1 - y.1 < DETECTION_DELAY) →
       s.req_car = false → s.car_first_seen_time = none →
       (run s l).req_car = false) := by
  unfold processInputs
  set s1 := latchButton s b with hs1
  have h1req : s1.req_car = s.req_car := by rw [hs1, latchButton_eq]
  have h1cf : s1.car_first_seen_time = s.car_first_seen_time := by
    rw [hs1, latchButton_eq]
  have h1st : s1.state = s.state := by rw [hs1, latchButton_eq]
  refine ⟨latchCar_last_true s1 now, ?_, ?_, ?_, ?_⟩
  · intro hnone
    rw [latchCar_true_none _ _ (h1cf.trans hnone)]
    exact ⟨rfl, h1req⟩
  · intro t0 ht0
    rw [latchCar_true_some _ _ t0 (h1cf.trans ht0)]
    constructor
    · split <;> exact h1cf.trans ht0
    · rw [h1req, h1st]
      split
      · rename_i hcond
        exact iff_of_true rfl (Or.inr ⟨hcond.1, hcond.2.2⟩)
      · rename_i hcond
        show s.req_car = true ↔ _
        rcases hr : s.req_car with _ | _
        · simp only [Bool.false_eq_true, false_iff, false_or]
          intro hcon
          exact hcond ⟨hcon.1, by simp [hr], hcon.2⟩
        · simp
  · rw [latchCar_false]
  · intro l hl hreq hcf
    exact run_confirm_false (fun t => ∃ x ∈ l, x.2.2 = true ∧ x.1 = t) l s
      (fun x hx hc => ⟨x, hx, hc, rfl⟩)
      (fun t htA x hx hc => by
        obtain ⟨y, hy, hyc, hyt⟩ := htA
        rw [← hyt]
        exact hl x hx hc y hy hyc)
      hreq (Or.inl hcf)

/-- C6: the transition step clears `req_pedestrian` and `req_car`, both
together, exactly at the `SideGreen → SideYellow` transition; every other
evaluation of the transition step leaves both flags unchanged; and after a
full tick whose transition is the `SideGreen → SideYellow` edge both flags
are false (whatever was latched earlier that tick), so no request survives
into the following cycle through that edge. -/
theorem C6_requests_cleared_only_at_sideGreen_exit (s : ControllerState)
    (now : ℚ) (b c : Bool) :
    ((s.state = Phase.SideGreen ∧ (stateMachine s now).state = Phase.SideYellow) →
       (stateMachine s now).req_pedestrian = false ∧
       (stateMachine s now).req_car = false)
  ∧ (¬ (s.state = Phase.SideGreen ∧
        (stateMachine s now).state = Phase.SideYellow) →
       (stateMachine s now).req_pedestrian = s.req_pedestrian ∧
       (stateMachine s now).req_car = s.req_car)
  ∧ ((s.state = Phase.SideGreen ∧ (tick s now b c).state = Phase.SideYellow) →
       (tick s now b c).req_pedestrian = false ∧
       (tick s now b c).req_car = false) := by
  refine ⟨?_, ?_, ?_⟩
  · intro h
    exact stateMachine_req_clear s now h.1 h.2
  · exact stateMachine_req_frame s now
  · intro h
    unfold tick at *
    refine stateMachine_req_clear _ now ?_ h.2
    rw [processInputs_state]
    exact h.1

/-- C7 as amended: the source computes `time_in_state = now −
state_start_time` with no clamping, so it is negative whenever `now`
falls below `state_start_time`; however every transition guard compares
`time_in_state` against a positive threshold, so on any tick where
`time_in_state` is negative the state machine changes nothing at all — in
particular no spurious instant transition occurs. -/
theorem C7_no_clamp_but_no_spurious_transition :
    (∀ now t : ℚ, time_in_state now t = now - t)
  ∧ (∀ (s : ControllerState) (now : ℚ),
       time_in_state now s.state_start_time < 0 → stateMachine s now = s) := by
  refine ⟨fun _ _ => rfl, ?_⟩
  intro s now h
  obtain ⟨st, sst, rp, rc, cf, lc, li⟩ := s
  simp only [time_in_state] at h
  cases st <;> unfold stateMachine <;> dsimp only <;> rw [if_neg]
  · intro hcon
    have h2 := hcon.2
    simp only [time_in_state, ge_iff_le, MIN_MAIN_GREEN] at h2
    linarith
  · intro hcon
    simp only [time_in_state, ge_iff_le, MAIN_YELLOW_TIME] at hcon
    linarith
  · intro hcon
    simp only [time_in_state, ge_iff_le, ALL_RED_TIME] at hcon
    linarith
  · intro hcon
    rcases hcon with ⟨hmin, _⟩ | hmax
    · refine hmin ?_
      simp only [time_in_state]
      split <;> [simp only [SIDE_PED_TIME]; simp only [SIDE_MIN_GREEN]] <;> linarith
    · simp only [time_in_state, ge_iff_le, SIDE_MAX_GREEN] at hmax
      linarith
  · intro hcon
    simp only [time_in_state, ge_iff_le, MAIN_YELLOW_TIME] at hcon
    linarith
  · intro hcon
    simp only [time_in_state, ge_iff_le, ALL_RED_TIME] at hcon
    linarith

/-- C7 as claimed is false: on a tick with `now = 3` in a state entered at
`state_start_time = 10`, the source's `time_in_state` is `−7`, not
clamped to `≥ 0`. -/
theorem C7_counterexample_no_clamping :
    time_in_state 3 10 = -7 ∧ time_in_state 3 10 < 0 := by
  constructor <;> norm_num [time_in_state]

/-- C8: on every single tick — with an arbitrary timestamp, so in
particular under a non-monotonic or stalled clock — a latched
`req_pedestrian` or `req_car` stays true unless that tick takes the
`SideGreen → SideYellow` edge, and the phase either stays put or advances
to its unique cyclic successor, never backwards. -/
theorem C8_nonmonotonic_clock_safety (s : ControllerState) (now : ℚ)
    (b c : Bool) :
    (s.req_pedestrian = true →
       ((tick s now b c).req_pedestrian = true ∨
        (s.state = Phase.SideGreen ∧ (tick s now b c).state = Phase.SideYellow)))
  ∧ (s.req_car = true →
       ((tick s now b c).req_car = true ∨
        (s.state = Phase.SideGreen ∧ (tick s now b c).state = Phase.SideYellow)))
  ∧ ((tick s now b c).state = s.state ∨
     (tick s now b c).state = nextPhase s.state) := by
  refine ⟨?_, ?_, tick_step s now b c⟩
  · intro hp
    by_cases hedge : s.state = Phase.SideGreen ∧
        (tick s now b c).state = Phase.SideYellow
    · exact Or.inr hedge
    · left
      unfold tick at *
      have hframe := stateMachine_req_frame (processInputs s now b c) now
        (by rw [processInputs_state]; exact hedge)
      rw [hframe.1]
      exact processInputs_ped_mono s now b c hp
  · intro hc
    by_cases hedge : s.state = Phase.SideGreen ∧
        (tick s now b c).state = Phase.SideYellow
    · exact Or.inr hedge
    · left
      unfold tick at *
      have hframe := stateMachine_req_frame (processInputs s now b c) now
        (by rw [processInputs_state]; exact hedge)
      rw [hframe.2]
      exact processInputs_car_mono s now b c hc

/-- C10: the transition step never touches `car_first_seen_time` (it is
reset only when presence drops), and on a tick with the vehicle present
the window anchor is kept (or opened at `now` if it was closed); hence on
any tick that starts in `MainGreen` with `req_car` still false and an
anchor `t0` already at least `DETECTION_DELAY` old, that very tick sets
`req_car` — no additional `DETECTION_DELAY` wait inside `MainGreen`. -/
theorem C10_confirmation_window_survives_phases (s : ControllerState)
    (now : ℚ) (b : Bool) :
    ((stateMachine s now).car_first_seen_time = s.car_first_seen_time)
  ∧ (∀ t0, s.car_first_seen_time = some t0 →
       (tick s now b true).car_first_seen_time = some t0)
  ∧ (s.car_first_seen_time = none →
       (tick s now b true).car_first_seen_time = some now)
  ∧ (∀ t0, s.state = Phase.MainGreen → s.req_car = false →
       s.car_first_seen_time = some t0 → now - t0 ≥ DETECTION_DELAY →
       (tick s now b true).req_car = true) := by
  have h1cf : (latchButton s b).car_first_seen_time = s.car_first_seen_time := by
    rw [latchButton_eq]
  have h1req : (latchButton s b).req_car = s.req_car := by rw [latchButton_eq]
  have h1st : (latchButton s b).state = s.state := by rw [latchButton_eq]
  refine ⟨stateMachine_first s now, ?_, ?_, ?_⟩
  · intro t0 ht0
    unfold tick processInputs
    rw [stateMachine_first, latchCar_true_some _ _ t0 (h1cf.trans ht0)]
    split <;> exact h1cf.trans ht0
  · intro hnone
    unfold tick processInputs
    rw [stateMachine_first, latchCar_true_none _ _ (h1cf.trans hnone)]
  · intro t0 hst hreq ht0 hdelay
    unfold tick processInputs
    set s2 := latchCar (latchButton s b) now true with hs2
    have hs2st : s2.state = Phase.MainGreen := by
      rw [hs2, latchCar_state, h1st, hst]
    have hs2req : s2.req_car = true := by
      rw [hs2, latchCar_true_some _ _ t0 (h1cf.trans ht0)]
      rw [if_pos ⟨hdelay, by rw [h1req]; simp [hreq], h1st.trans hst⟩]
    have hframe := stateMachine_req_frame s2 now
      (by intro hcon
          rw [hs2st] at hcon
          exact absurd hcon.1 (by decide))
    rw [hframe.2]
    exact hs2req

/-! ### Witness states and witness theorems -/

/-- A concrete `SideGreen` state entered at time 0 with no requests and no
car seen since time 0. -/
def sideGreenAt0 : ControllerState :=
  { state := Phase.SideGreen, state_start_time := 0, req_pedestrian := false,
    req_car := false, car_first_seen_time := none, last_car_seen_time := 0,
    lights := lightTable Phase.SideGreen }

/-- A concrete `SideGreen` state entered at time 0 with both requests
latched. -/
def sideGreenBothReqs : ControllerState :=
  { state := Phase.SideGreen, state_start_time := 0, req_pedestrian := true,
    req_car := true, car_first_seen_time := none, last_car_seen_time := 0,
    lights := lightTable Phase.SideGreen }

/-- A concrete `MainGreen` state entered at time 0 with both requests
latched. -/
def mainGreenBothReqs : ControllerState :=
  { state := Phase.MainGreen, state_start_time := 0, req_pedestrian := true,
    req_car := true, car_first_seen_time := none, last_car_seen_time := 0,
    lights := lightTable Phase.MainGreen }

/-- A concrete `MainGreen` state with a confirmation window opened at
time 0 and no request yet. -/
def mainGreenWindowOpen : ControllerState :=
  { state := Phase.MainGreen, state_start_time := 0, req_pedestrian := false,
    req_car := false, car_first_seen_time := some 0, last_car_seen_time := 0,
    lights := lightTable Phase.MainGreen }

/-- Witness for C3: in `sideGreenAt0` at `now = 10` the gap-out guard
(min duration 4 elapsed, gap 10 ≥ 2.5) fires and the step exits to
`SideYellow`. -/
theorem C3_witness :
    (stateMachine sideGreenAt0 10).state = Phase.SideYellow := by
  have h := C3_sideGreen_gap_out sideGreenAt0 10 rfl
  exact h.1.mpr (Or.inl ⟨by norm_num [sideGreenAt0, SIDE_MIN_GREEN],
    by norm_num [sideGreenAt0, SIDE_GAP_TIME]⟩)

/-- Witness for C4: in `mainGreenBothReqs` at `now = 5 = MIN_MAIN_GREEN`
the step exits to `MainYellow`. -/
theorem C4_witness :
    (stateMachine mainGreenBothReqs 5).state = Phase.MainYellow := by
  have h := (C4_mainGreen_min_hold mainGreenBothReqs 5 false false).1 rfl
  exact h.1.mpr ⟨Or.inl rfl, by norm_num [mainGreenBothReqs, MIN_MAIN_GREEN]⟩

/-- Witness for C5: in `mainGreenWindowOpen` a present vehicle at
`now = 1 = DETECTION_DELAY` sets `req_car`, while a two-tick presence
pulse of width 1/2 starting from the initial state never does. -/
theorem C5_witness :
    (processInputs mainGreenWindowOpen 1 false true).req_car = true ∧
    (run (initState 0) [(0, false, true), (1/2, false, true)]).req_car = false := by
  constructor
  · have h := ((C5_detection_delay_filter mainGreenWindowOpen 1 false).2.2.1 0 rfl).2
    exact h.mpr (Or.inr ⟨by norm_num [DETECTION_DELAY], rfl⟩)
  · have h := (C5_detection_delay_filter (initState 0) 0 false).2.2.2.2
    refine h [(0, false, true), (1/2, false, true)] ?_ rfl rfl
    intro x hx hc y hy hyc
    fin_cases hx <;> fin_cases hy <;> norm_num [DETECTION_DELAY]

/-- Witness for C6: in `sideGreenBothReqs` at `now = 20` the exit
transition fires and both request flags come out false. -/
theorem C6_witness :
    (stateMachine sideGreenBothReqs 20).req_pedestrian = false ∧
    (stateMachine sideGreenBothReqs 20).req_car = false := by
  have h := (C6_requests_cleared_only_at_sideGreen_exit sideGreenBothReqs
    20 false false).1
  refine h ⟨rfl, ?_⟩
  norm_num [stateMachine, sideGreenBothReqs, time_in_state, SIDE_PED_TIME,
    SIDE_GAP_TIME, SIDE_MAX_GREEN]

/-- Witness for C7 (amended): a tick at `now = 3` on a phase entered at
time 10 (negative `time_in_state`) changes nothing. -/
theorem C7_witness : stateMachine (initState 10) 3 = initState 10 :=
  C7_no_clamp_but_no_spurious_transition.2 (initState 10) 3
    (by norm_num [time_in_state, initState])

/-- Witness for C8: in `mainGreenBothReqs`, a tick at `now = 0` (a clock
that jumped backwards) keeps both latched requests true. -/
theorem C8_witness :
    (tick mainGreenBothReqs 0 false false).req_pedestrian = true ∧
    (tick mainGreenBothReqs 0 false false).req_car = true := by
  have h := C8_nonmonotonic_clock_safety mainGreenBothReqs 0 false false
  exact ⟨(h.1 rfl).resolve_right (fun hcon => absurd hcon.1 (by decide)),
    (h.2.1 rfl).resolve_right (fun hcon => absurd hcon.1 (by decide))⟩

/-- Witness for C10: in `mainGreenWindowOpen` (window opened at time 0), a
tick with the vehicle present at `now = 1 = DETECTION_DELAY` sets
`req_car` immediately. -/
theorem C10_witness :
    (tick mainGreenWindowOpen 1 false true).req_car = true :=
  (C10_confirmation_window_survives_phases mainGreenWindowOpen 1 false).2.2.2
    0 rfl rfl rfl (by norm_num [DETECTION_DELAY])

end TrafficController
